import Mathlib

/-!
Shallow embedding of `src/shaarli_client.py` (class `ShaarliClient`), a
Selenium-driven client for a Shaarli instance.  WebDriver calls are modelled by
explicit environment records: each `find_elements` query is a function from a
selector rule to `Except Unit (List Nat)` (`.error` models a raised exception,
element handles are opaque naturals), and each interaction attempt carries a
boolean saying whether it would complete without raising.  Stateful parts of
the client (`base_url`, `driver`, `is_logged_in`) are threaded explicitly
through the public operations, which return `Except String` to model the
`RuntimeError` precondition checks.
-/

namespace Shaarli

/-- Does `pat` occur as a prefix of `l`? (helper for the substring test) -/
def listPrefix : List Char → List Char → Bool
  | [], _ => true
  | _ :: _, [] => false
  | p :: ps, c :: cs => p == c && listPrefix ps cs

/-- Does `pat` occur as a contiguous subsequence of `l`? (helper) -/
def listContainsSeq (pat : List Char) : List Char → Bool
  | [] => pat.isEmpty
  | c :: cs => listPrefix pat (c :: cs) || listContainsSeq pat cs

/-- Python's `pat in s` substring test (`"login" not in current_url`,
`self.base_url not in href`, etc.). -/
def strContains (s pat : String) : Bool :=
  listContainsSeq pat.data s.data

/-- Python's `str.strip()`: drop whitespace from both ends. -/
def pyStrip (s : String) : String :=
  ⟨((s.data.dropWhile Char.isWhitespace).reverse.dropWhile Char.isWhitespace).reverse⟩

/-- Python truthiness of an `or` chain of the form
`element.text.strip() or element.get_attribute("title") or "No title"`
(lines 874, 905): an empty string and a missing attribute are falsy. -/
def firstTruthy (a : String) (b : Option String) (c : String) : String :=
  if a.isEmpty then (match b with | some s => if s.isEmpty then c else s | none => c) else a

/-- Python truthiness of the `text` argument of `try_interact_with_element`
(`action == "send_keys" and text`): `None` and `""` are falsy. -/
def textTruthy : Option String → Bool
  | none => false
  | some t => !t.isEmpty

/-! ## Interaction engine: `try_interact_with_element` (source lines 138-185) -/

/-- The two actions the interaction engine supports (`action` parameter). -/
inductive IAction
  | click
  | sendKeys
deriving DecidableEq, Repr

/-- Whether a tactic body's guarded branch executes at all: line 145
(`if action == "click"`) or line 148 (`elif action == "send_keys" and text`). -/
def actionRuns (a : IAction) (text : Option String) : Bool :=
  match a with
  | .click => true
  | .sendKeys => textTruthy text

/-- Environment for one `try_interact_with_element` call: whether each of the
three tactic bodies would complete without raising when executed (`t1`, `t2`,
`t3`), and whether the scroll-into-view preamble of tactic 2 (line 157, run
before tactic 2's action guard) would complete without raising. -/
structure TacticEnv where
  t1 : Bool
  t2 : Bool
  t3 : Bool
  scrollOk : Bool
deriving DecidableEq, Repr

/-- Observable session operations attempted by the engine, in order:
`native1` = tactic 1's native click / clear+send_keys (lines 146, 149-150),
`scroll` = tactic 2's scrollIntoView script (line 157),
`native2` = tactic 2's retried native action (lines 161, 164-165),
`script3` = tactic 3's script-level click / value assignment (lines 173,
176-180).  An operation is recorded when it is attempted, whether or not it
raises. -/
inductive Effect
  | native1 (a : IAction)
  | scroll
  | native2 (a : IAction)
  | script3 (a : IAction)
deriving DecidableEq, Repr

/-- `try_interact_with_element` (source lines 138-185).  Returns the boolean
result of the Python method together with the trace of attempted session
operations.  A falsy `element` returns `False` immediately (lines 140-141);
each tactic's exception is caught by its `except` clause, so the Python method
never raises (modelled by this being a total function into `Bool`). -/
def try_interact_with_element (elem : Option Nat) (a : IAction) (text : Option String)
    (env : TacticEnv) : Bool × List Effect :=
  match elem with
  | none => (false, [])
  | some _ =>
    let run := actionRuns a text
    let m1 : List Effect := if run then [.native1 a] else []
    if run && env.t1 then (true, m1)
    else
      let m2 : List Effect := m1 ++ [.scroll] ++ (if env.scrollOk && run then [.native2 a] else [])
      if env.scrollOk && (run && env.t2) then (true, m2)
      else
        let m3 : List Effect := m2 ++ (if run then [.script3 a] else [])
        if run && env.t3 then (true, m3) else (false, m3)

/-! ## Locator resolver: the per-field selector loops
(source lines 281-290, 370-379, 416-425, 526-535, 561-570, 604-613, 715-724) -/

/-- A selector rule: a `(By.<kind>, value)` pair from one of the selector
plans. -/
abbrev SelectorRule := String × String

/-- The generic first-match resolver loop: for each rule in order call
`find_elements`; an exception (`.error`) is caught and the loop continues
(`except: continue`); on the first rule whose result list is non-empty, take
`elements[0]` and stop. -/
def resolveFirst {α : Type} (rules : List α) (query : α → Except Unit (List Nat)) : Option Nat :=
  match rules with
  | [] => none
  | r :: rest =>
    match query r with
    | .ok (e :: _) => some e
    | .ok [] => resolveFirst rest query
    | .error _ => resolveFirst rest query

/-- A query outcome that yields no usable match: an empty result list or a
raised exception. -/
def noMatch (r : Except Unit (List Nat)) : Prop :=
  r = .ok [] ∨ r = .error ()

/-! ## Selector plans (the literal `(By.<kind>, value)` lists of the source) -/

/-- `username_selectors` (source lines 261-279), 17 rules. -/
def username_selectors : List SelectorRule :=
  [("name", "login"), ("name", "username"), ("name", "user"),
   ("id", "login"), ("id", "username"), ("id", "user"),
   ("css", "input[name=\x27login\x27]"), ("css", "input[name=\x27username\x27]"),
   ("css", "input[type=\x27text\x27]"), ("css", "input[type=\x27email\x27]"),
   ("xpath", "//input[@name=\x27login\x27]"), ("xpath", "//input[@name=\x27username\x27]"),
   ("xpath", "//input[@type=\x27text\x27]"),
   ("xpath", "//input[contains(@placeholder, \x27user\x27)]"),
   ("xpath", "//input[contains(@placeholder, \x27login\x27)]"),
   ("xpath", "//input[contains(@class, \x27user\x27)]"),
   ("xpath", "//input[contains(@class, \x27login\x27)]")]

/-- `password_selectors` (source lines 361-368), 6 rules. -/
def password_selectors : List SelectorRule :=
  [("name", "password"), ("id", "password"),
   ("css", "input[name=\x27password\x27]"), ("css", "input[type=\x27password\x27]"),
   ("xpath", "//input[@name=\x27password\x27]"), ("xpath", "//input[@type=\x27password\x27]")]

/-- `submit_selectors` (source lines 403-414), 10 rules. -/
def submit_selectors : List SelectorRule :=
  [("css", "input[type=\x27submit\x27]"), ("css", "button[type=\x27submit\x27]"),
   ("css", "input[value*=\x27Login\x27]"), ("css", "input[value*=\x27login\x27]"),
   ("css", "input[value*=\x27Log in\x27]"), ("css", "button"),
   ("xpath", "//input[@type=\x27submit\x27]"), ("xpath", "//button[@type=\x27submit\x27]"),
   ("xpath", "//input[contains(@value, \x27Login\x27)]"),
   ("xpath", "//button[contains(text(), \x27Login\x27)]")]

/-- `url_selectors` of `add_url` (source lines 515-524), 8 rules. -/
def url_selectors : List SelectorRule :=
  [("name", "post"), ("id", "shaare"),
   ("css", "input[name=\x27post\x27]"), ("css", "input[type=\x27url\x27]"),
   ("css", "input[type=\x27text\x27]"),
   ("xpath", "//input[@name=\x27post\x27]"), ("xpath", "//input[@id=\x27shaare\x27]"),
   ("xpath", "//input[@type=\x27url\x27]")]

/-- `first_submit_selectors` of `add_url` (source lines 550-559), 8 rules. -/
def first_submit_selectors : List SelectorRule :=
  [("css", "input[type=\x27submit\x27]"), ("css", "button[type=\x27submit\x27]"),
   ("css", "input[value*=\x27Add\x27]"), ("css", "button"),
   ("xpath", "//input[@type=\x27submit\x27]"), ("xpath", "//button[@type=\x27submit\x27]"),
   ("xpath", "//input[contains(@value, \x27Add\x27)]"),
   ("xpath", "//button[contains(text(), \x27Add\x27)]")]

/-- `title_selectors` of `add_url` (source lines 593-602), 8 rules. -/
def title_selectors : List SelectorRule :=
  [("name", "lf_title"), ("name", "title"), ("id", "lf_title"), ("id", "title"),
   ("css", "input[name=\x27lf_title\x27]"), ("css", "input[name=\x27title\x27]"),
   ("xpath", "//input[@name=\x27lf_title\x27]"), ("xpath", "//input[@name=\x27title\x27]")]

/-- `save_selectors` of `add_url` (source lines 703-712), 8 rules. -/
def save_selectors : List SelectorRule :=
  [("css", "input[type=\x27submit\x27][value*=\x27Save\x27]"),
   ("css", "button[type=\x27submit\x27]"), ("css", "input[type=\x27submit\x27]"),
   ("css", "button"),
   ("xpath", "//input[@type=\x27submit\x27 and contains(@value, \x27Save\x27)]"),
   ("xpath", "//button[@type=\x27submit\x27]"),
   ("xpath", "//button[contains(text(), \x27Save\x27)]"),
   ("xpath", "//input[@type=\x27submit\x27]")]

/-! ## Client state -/

/-- The mutable fields of `ShaarliClient` the public operations read or write:
`base_url` (line 37), `driver` (line 39, `some ()` once `start_driver`
succeeded), `is_logged_in` (line 40). -/
structure ClientState where
  base_url : String
  driver : Option Unit
  is_logged_in : Bool
deriving DecidableEq, Repr

/-- `close` (source lines 71-75): calls `driver.quit()` but assigns no field of
the client — in particular it resets neither `driver` nor `is_logged_in`. -/
def close (st : ClientState) : ClientState :=
  st

/-! ## Login workflow (source lines 217-481) -/

/-- Driver focus context: the default content or the iframe at a given index
(`switch_to.frame` / `switch_to.default_content`). -/
inductive Ctx
  | mainDoc
  | frame (i : Nat)
deriving DecidableEq, Repr

/-- One iframe found by `check_for_iframes`: whether switching into it and
dumping its elements completes without raising (lines 328-329), and the result
of `find_elements` inside it for each rule of `username_selectors` (by index).
-/
structure IframeData where
  accessible : Bool
  query : SelectorRule → Except Unit (List Nat)

/-- The search inside one iframe (source lines 332-340): the first 5 rules of
`username_selectors` are retried, first non-empty match wins; an inaccessible
iframe (exception while switching/dumping) yields nothing. -/
def searchFrame (f : IframeData) : Option Nat :=
  if f.accessible then resolveFirst (username_selectors.take 5) f.query else none

/-- The iframe fallback loop of the username resolution (source lines 326-348),
accumulating the driver context: entering iframe `i` sets the context to
`frame i`; on a hit the loop `break`s at line 343 (before the
`switch_to.default_content()` of line 345); when the iframe yields nothing (or
raises), `switch_to.default_content()` runs and the loop continues. -/
def iframeSearchAux : Nat → List IframeData → Option Nat × Ctx
  | _, [] => (none, Ctx.mainDoc)
  | i, f :: rest =>
    match searchFrame f with
    | some e => (some e, Ctx.frame i)
    | none => iframeSearchAux (i + 1) rest

/-- The iframe fallback search started from the first iframe, returning the
found element (if any) and the driver context left behind on return. -/
def iframeSearch (frames : List IframeData) : Option Nat × Ctx :=
  iframeSearchAux 0 frames

/-- Marker queries of `_is_logged_in` (source lines 471-481): the three
`find_elements(By.PARTIAL_LINK_TEXT, ...)` results for "Logout", "Tools" and
"Shaare", plus whether any of the calls raises. -/
structure MarkerEnv where
  logoutLinks : List Nat
  toolsLinks : List Nat
  shaareLinks : List Nat
  throws : Bool
deriving DecidableEq, Repr

/-- `_is_logged_in` (source lines 471-481): true iff some marker list is
non-empty; any exception yields `False`. -/
def is_logged_in_check (m : MarkerEnv) : Bool :=
  if m.throws then false
  else !m.logoutLinks.isEmpty || !m.toolsLinks.isEmpty || !m.shaareLinks.isEmpty

/-- Environment of one `login` call: the outcome of every session query and
interaction the method performs, in source order. -/
structure LoginEnv where
  /-- lines 235-244: `driver.get`, readiness gate, iframe dump and element dump
  complete without raising (a raise is caught at line 467 and yields `False`).
  -/
  navOk : Bool
  /-- lines 250-255: the wait for any `input` element succeeds (a
  `TimeoutException` yields `False`). -/
  pageHasInputs : Bool
  /-- lines 281-290: `find_elements` for each rule of `username_selectors` in
  the main document. -/
  usernameSelQuery : SelectorRule → Except Unit (List Nat)
  /-- lines 293-304 (approach 2): for each form, its
  `input[type='text'], input:not([type])` elements; `.error` models a raise
  during the form scan. -/
  forms : Except Unit (List (List Nat))
  /-- lines 307-318 (approach 3): every `input` element with its `type`
  attribute (`none` models a missing attribute). -/
  allInputs : Except Unit (List (Nat × Option String))
  /-- line 241: the iframes found by `check_for_iframes` ([] on exception). -/
  iframes : List IframeData
  /-- line 355: tactic outcomes for `try_interact_with_element(username_field,
  "send_keys", username)`. -/
  usernameTactics : TacticEnv
  /-- lines 370-379: `find_elements` for each rule of `password_selectors`. -/
  passwordSelQuery : SelectorRule → Except Unit (List Nat)
  /-- lines 382-389: the fallback `input[type='password']` query. -/
  passwordFallback : Except Unit (List Nat)
  /-- line 397: tactic outcomes for the password `send_keys` interaction. -/
  passwordTactics : TacticEnv
  /-- lines 416-425: `find_elements` for each rule of `submit_selectors`. -/
  submitSelQuery : SelectorRule → Except Unit (List Nat)
  /-- line 441: tactic outcomes for clicking the submit button. -/
  submitTactics : TacticEnv
  /-- lines 432, 446: whether `password_field.send_keys("\n")` completes
  without raising. -/
  enterKeyOk : Bool
  /-- line 455: `driver.current_url` after the settle delay. -/
  currentUrl : String
  /-- lines 475-479: the `_is_logged_in` marker queries. -/
  markers : MarkerEnv

/-- Username resolution approach 2 (source lines 296-302): the first form whose
text-input list is non-empty contributes its first input. -/
def firstFormInput : List (List Nat) → Option Nat
  | [] => none
  | (x :: _) :: _ => some x
  | [] :: rest => firstFormInput rest

/-- The attribute values excluded by approach 3 (source line 313). -/
def excludedInputTypes : List (Option String) :=
  [some "password", some "submit", some "button", some "hidden"]

/-- Username resolution approach 3 (source lines 310-316): the first input
whose `type` attribute is not password/submit/button/hidden (a missing
attribute qualifies, as `None not in [...]` is true). -/
def firstNonPasswordInput (inputs : Except Unit (List (Nat × Option String))) : Option Nat :=
  match inputs with
  | .error _ => none
  | .ok l => (l.find? fun p => !(excludedInputTypes.contains p.2)).map Prod.fst

/-- The full username-field resolution (source lines 258-351): the 17-rule
plan, then the first text input in a form, then any non-excluded input, then —
only when iframes exist — the iframe fallback search. -/
def usernameResolution (env : LoginEnv) : Option Nat :=
  match resolveFirst username_selectors env.usernameSelQuery with
  | some e => some e
  | none =>
    match (match env.forms with | .error _ => none | .ok fs => firstFormInput fs) with
    | some e => some e
    | none =>
      match firstNonPasswordInput env.allInputs with
      | some e => some e
      | none =>
        match env.iframes with
        | [] => none
        | _ :: _ => (iframeSearch env.iframes).1

/-- Password-field resolution (source lines 360-389): the 6-rule plan, then the
fallback `input[type='password']` query. -/
def passwordResolution (env : LoginEnv) : Option Nat :=
  match resolveFirst password_selectors env.passwordSelQuery with
  | some e => some e
  | none =>
    match env.passwordFallback with
    | .ok (e :: _) => some e
    | _ => none

/-- The submission stage (source lines 402-449): resolve a submit control and
click it, falling back to an Enter keystroke into the password field; returns
whether control reaches the post-submission check (a failed fallback keystroke
returns `False` from `login`). -/
def submitStep (env : LoginEnv) : Bool :=
  match resolveFirst submit_selectors env.submitSelQuery with
  | none => env.enterKeyOk
  | some b =>
    if (try_interact_with_element (some b) .click none env.submitTactics).1 then true
    else env.enterKeyOk

/-- The boolean outcome of the `login` body (source lines 231-469): each failed
stage returns `False`; after submission the method succeeds iff the current
URL no longer contains `"login"` or `_is_logged_in` finds a marker (line 456).
-/
def login_decision (username password : String) (env : LoginEnv) : Bool :=
  if !env.navOk then false
  else if !env.pageHasInputs then false
  else
    match usernameResolution env with
    | none => false
    | some uf =>
      if !(try_interact_with_element (some uf) .sendKeys (some username) env.usernameTactics).1
      then false
      else
        match passwordResolution env with
        | none => false
        | some pf =>
          if !(try_interact_with_element (some pf) .sendKeys (some password) env.passwordTactics).1
          then false
          else if !submitStep env then false
          else (!strContains env.currentUrl "login") || is_logged_in_check env.markers

/-- `login` (source lines 217-469): raises `RuntimeError` when the driver is
not initialized (lines 228-229); otherwise returns the body's boolean,
setting `is_logged_in := True` exactly on success (line 457). -/
def login (st : ClientState) (username password : String) (env : LoginEnv) :
    Except String (Bool × ClientState) :=
  if st.driver.isNone then
    .error "WebDriver not initialized. Call start_driver() first."
  else
    let b := login_decision username password env
    .ok (b, if b then { st with is_logged_in := true } else st)

/-! ## Add-bookmark workflow: `add_url` (source lines 483-754) -/

/-- Environment of one `add_url` call, in source order. -/
structure AddUrlEnv where
  /-- lines 506-511: navigation and readiness gate complete without raising. -/
  navOk : Bool
  /-- lines 526-535: `find_elements` for each rule of `url_selectors`. -/
  urlQuery : SelectorRule → Except Unit (List Nat)
  /-- line 544: tactic outcomes for typing the URL into the URL field. -/
  urlTactics : TacticEnv
  /-- lines 561-570: `find_elements` for each rule of `first_submit_selectors`.
  -/
  firstSubmitQuery : SelectorRule → Except Unit (List Nat)
  /-- line 574: tactic outcomes for clicking the step-one submit button. -/
  firstSubmitTactics : TacticEnv
  /-- line 580: tactic outcomes for the Enter-keystroke fallback
  (`try_interact_with_element(url_field, "send_keys", "\n")`). -/
  enterTactics : TacticEnv
  /-- lines 604-613: `find_elements` for each rule of `title_selectors`. -/
  titleQuery : SelectorRule → Except Unit (List Nat)
  /-- line 623: tactic outcomes for typing the title (failure is non-fatal,
  line 624). -/
  titleTactics : TacticEnv
  /-- lines 715-724: `find_elements` for each rule of `save_selectors`. -/
  saveQuery : SelectorRule → Except Unit (List Nat)
  /-- line 728: tactic outcomes for clicking the Save button. -/
  saveTactics : TacticEnv
  /-- line 740: `driver.current_url` after the settle delay. -/
  currentUrl : String

/-- The step-one submission of `add_url` (source lines 549-582): click the
first matching submit control; when none resolves, fall back to sending `"\n"`
into the URL field through the interaction engine; returns whether control
proceeds to step two. -/
def addStep1 (env : AddUrlEnv) (urlField : Nat) : Bool :=
  match resolveFirst first_submit_selectors env.firstSubmitQuery with
  | some b => (try_interact_with_element (some b) .click none env.firstSubmitTactics).1
  | none => (try_interact_with_element (some urlField) .sendKeys (some "\n") env.enterTactics).1

/-- The boolean outcome of the `add_url` body (source lines 504-754).  The
best-effort fills of title (lines 620-624), description (lines 626-649), tags
(lines 651-674) and the private checkbox (lines 676-700) swallow every fault
inside their own loops and never alter the returned value, so they contribute
nothing observable here; the title *resolution* (lines 592-618) is
load-bearing.  After the Save click and settle delay, success iff the current
URL contains neither `"add-shaare"` nor `"admin"` (line 741). -/
def add_url_decision (url : String) (env : AddUrlEnv) : Bool :=
  if !env.navOk then false
  else
    match resolveFirst url_selectors env.urlQuery with
    | none => false
    | some uf =>
      if !(try_interact_with_element (some uf) .sendKeys (some url) env.urlTactics).1 then false
      else if !addStep1 env uf then false
      else
        match resolveFirst title_selectors env.titleQuery with
        | none => false
        | some _ =>
          match resolveFirst save_selectors env.saveQuery with
          | none => false
          | some sb =>
            if !(try_interact_with_element (some sb) .click none env.saveTactics).1 then false
            else (!strContains env.currentUrl "add-shaare") && (!strContains env.currentUrl "admin")

/-- `add_url` (source lines 483-754): raises `RuntimeError` when the driver is
not initialized (lines 498-499) or when not logged in (lines 501-502); the
body never assigns a client field, so the state is returned unchanged. -/
def add_url (st : ClientState) (url : String) (env : AddUrlEnv) :
    Except String (Bool × ClientState) :=
  if st.driver.isNone then .error "WebDriver not initialized"
  else if !st.is_logged_in then .error "Not logged in. Call login() first."
  else .ok (add_url_decision url env, st)

/-! ## Link extraction: `get_links` (source lines 756-973) -/

/-- A scraped bookmark entry (the dict built at lines 868-961). -/
structure BookmarkRecord where
  url : String
  title : String
  description : String
  tags : String
deriving DecidableEq, Repr

/-- An anchor element as consumed by the extraction loop: its `href`
attribute (`none` models a missing attribute), its visible text and its
`title` attribute. -/
structure LAnchor where
  href : Option String
  text : String
  titleAttr : Option String

/-- A candidate element produced by tier 1: its tag name and own anchor
attributes (used when the element is itself an `<a>`), plus the sub-queries
the extraction loop performs inside it:
`innerLinks` = `find_elements(By.CSS_SELECTOR, link_sel)` (line 890),
`innerDesc` = `find_element(By.CSS_SELECTOR, desc_sel).text` (`none` models
`NoSuchElementException`, line 927),
`innerTags` = the texts of `find_elements(By.CSS_SELECTOR, tag_sel)` (line
949). -/
structure LElem where
  tag : String
  href : Option String
  text : String
  titleAttr : Option String
  innerLinks : String → List LAnchor
  innerDesc : String → Option String
  innerTags : String → List String

/-- Page-level queries of one `get_links` call. -/
structure LinksPage where
  /-- line 796: `driver.find_elements(By.CSS_SELECTOR, sel)` for the tier-1
  selectors. -/
  modernQuery : String → List LElem
  /-- line 810: every `<a>` on the page (tier 2). -/
  allAnchors : List LAnchor
  /-- line 839: `driver.find_element(By.CSS_SELECTOR, sel)` for the tier-3
  container selectors (`none` models `NoSuchElementException`). -/
  containerQuery : String → Option LElem
  /-- line 841: the `<a>` elements inside a tier-3 container. -/
  containerAnchors : LElem → List LAnchor

/-- `modern_selectors` (source lines 784-791). -/
def modern_selectors : List String :=
  [".linklist .linklist-item", ".bookmark", ".shaare", ".link", "article", ".post"]

/-- `link_selectors` of the in-element link search (source lines 880-886). -/
def link_selectors : List String :=
  ["a[href*=\x27http\x27]", ".linklist-link", ".bookmark-title a", ".shaare-title a", "a"]

/-- `desc_selectors` (source lines 914-921). -/
def desc_selectors : List String :=
  [".linklist-description", ".bookmark-description", ".shaare-description", ".description",
   "p", ".text"]

/-- `tag_selectors` (source lines 938-944). -/
def tag_selectors : List String :=
  [".linklist-tags", ".bookmark-tags", ".shaare-tags", ".tags", ".tag"]

/-- `container_selectors` of tier 3 (source lines 829-835). -/
def container_selectors : List String :=
  [".main-content", ".content", "#content", "main", ".container"]

/-- The external-link filter applied at lines 815, 848, 895:
`href and "http" in href and self.base_url not in href`. -/
def isExternal (base : String) (href : Option String) : Bool :=
  match href with
  | none => false
  | some h => strContains h "http" && !strContains h base

/-- Tier 1 (source lines 793-803): the first tier-1 selector whose query
returns a non-empty element list wins. -/
def firstModernMatch (q : String → List LElem) : List String → Option (List LElem)
  | [] => none
  | s :: rest =>
    match q s with
    | [] => firstModernMatch q rest
    | e :: es => some (e :: es)

/-- Tier 3 (source lines 827-856): the first container selector whose
container exists and holds at least one external anchor wins. -/
def firstContainerMatch (base : String) (page : LinksPage) : List String → Option (List LAnchor)
  | [] => none
  | s :: rest =>
    match page.containerQuery s with
    | none => firstContainerMatch base page rest
    | some c =>
      match (page.containerAnchors c).filter (fun a2 => isExternal base a2.href) with
      | [] => firstContainerMatch base page rest
      | e :: es => some (e :: es)

/-- A candidate item of the extraction loop: a tier-1 element, or an anchor
supplied by tier 2 / tier 3. -/
inductive PageItem
  | el (e : LElem)
  | anchor (a : LAnchor)

/-- The in-element link search (source lines 888-901): for each link selector
in order, the first anchor inside the element passing the external filter. -/
def findInnerLink (base : String) (e : LElem) : List String → Option LAnchor
  | [] => none
  | sel :: rest =>
    match (e.innerLinks sel).find? (fun fl => isExternal base fl.href) with
    | some la => some la
    | none => findInnerLink base e rest

/-- The description loop (source lines 923-932): per selector, if the element
exists its stripped text is assigned; a non-empty assignment breaks the loop.
-/
def descLoop (e : LElem) : List String → String → String
  | [], acc => acc
  | sel :: rest, acc =>
    match e.innerDesc sel with
    | none => descLoop e rest acc
    | some t => if (pyStrip t).isEmpty then descLoop e rest (pyStrip t) else pyStrip t

/-- The tags loop (source lines 946-955): the first selector returning a
non-empty element list wins; its non-empty stripped texts are joined with a
space. -/
def tagsLoop (e : LElem) : List String → String
  | [] => ""
  | sel :: rest =>
    match e.innerTags sel with
    | [] => tagsLoop e rest
    | t :: ts =>
      String.intercalate " " (((t :: ts).map pyStrip).filter (fun s => !s.isEmpty))

/-- The record guard (source lines 959-961): a record is kept only when the
url value is truthy (present and non-empty). -/
def mkIfUrl (url : Option String) (title description tags : String) : Option BookmarkRecord :=
  match url with
  | none => none
  | some u => if u.isEmpty then none else some ⟨u, title, description, tags⟩

/-- The per-candidate extraction (source lines 866-966).  An element that is
itself an `<a>` (line 871) contributes its own `href`/text directly — note:
without the external filter; any other element contributes the first external
anchor found inside it, or is skipped.  Description and tags are only
collected for non-anchor elements (lines 924, 946). -/
def extractOne (base : String) (it : PageItem) : Option BookmarkRecord :=
  match it with
  | .anchor a =>
    mkIfUrl a.href (firstTruthy (pyStrip a.text) a.titleAttr "No title") "" ""
  | .el e =>
    if e.tag == "a" then
      mkIfUrl e.href (firstTruthy (pyStrip e.text) e.titleAttr "No title") "" ""
    else
      match findInnerLink base e link_selectors with
      | none => none
      | some la =>
        mkIfUrl la.href (firstTruthy (pyStrip la.text) la.titleAttr "No title")
          (descLoop e desc_selectors "") (tagsLoop e tag_selectors)

/-- The body of `get_links` after navigation (source lines 781-969): the
three-tier cascade selects candidate elements (truncated to `limit`), and the
extraction loop turns them into records. -/
def get_links_body (base : String) (limit : Nat) (page : LinksPage) : List BookmarkRecord :=
  match firstModernMatch page.modernQuery modern_selectors with
  | some els => ((els.take limit).map PageItem.el).filterMap (extractOne base)
  | none =>
    match page.allAnchors.filter (fun a2 => isExternal base a2.href) with
    | p :: ps => (((p :: ps).take limit).map PageItem.anchor).filterMap (extractOne base)
    | [] =>
      match firstContainerMatch base page container_selectors with
      | some ext => ((ext.take limit).map PageItem.anchor).filterMap (extractOne base)
      | none => []

/-- Environment of one `get_links` call. -/
structure GetLinksEnv where
  /-- lines 772-775: navigation and readiness gate complete without raising (a
  raise is caught at line 971 and yields `[]`). -/
  navOk : Bool
  /-- the page queries. -/
  page : LinksPage

/-- `get_links` (source lines 756-973): raises `RuntimeError` when not logged
in (lines 766-767); any fault inside the body yields `[]` (line 973); the
body never assigns a client field, so the state is returned unchanged. -/
def get_links (st : ClientState) (limit : Nat) (env : GetLinksEnv) :
    Except String (List BookmarkRecord × ClientState) :=
  if !st.is_logged_in then .error "Not logged in. Call login() first."
  else if !env.navOk then .ok ([], st)
  else .ok (get_links_body st.base_url limit env.page, st)

/-! # Theorems -/

/-- Claim C3: for every selector plan split as `pre ++ r :: post` where every
rule of `pre` matches nothing (empty result or exception) and `r`'s query
yields `e :: es`, the resolver returns `e` — the first match of the first
succeeding rule; the rules after `r` and the matches after `e` are never
consulted (the result coincides with resolving the plan truncated right after
`r`, and is independent of `es` and `post`). -/
theorem c3_priority_order {α : Type} (pre post : List α) (r : α)
    (query : α → Except Unit (List Nat)) (e : Nat) (es : List Nat)
    (hbefore : ∀ ru ∈ pre, noMatch (query ru))
    (hhit : query r = .ok (e :: es)) :
    resolveFirst (pre ++ r :: post) query = some e
      ∧ resolveFirst (pre ++ r :: post) query = resolveFirst (pre ++ [r]) query := by
  induction pre with
  | nil => constructor <;> simp [resolveFirst, hhit]
  | cons p ps ih =>
    have hp := hbefore p (List.mem_cons_self p ps)
    have ihh := ih (fun ru hru => hbefore ru (List.mem_cons_of_mem p hru))
    rcases hp with h | h <;> simpa [resolveFirst, h] using ihh

/-- Witness for C3: a concrete three-rule plan whose first rule matches
nothing and whose second yields `[7, 8]` resolves to `7`. -/
theorem c3_priority_order_witness :
    resolveFirst ([("name", "login")] ++ ("name", "username") :: [("name", "user")])
        (fun ru => if ru.2 == "username" then Except.ok [7, 8] else Except.ok []) = some 7
      ∧ resolveFirst ([("name", "login")] ++ ("name", "username") :: [("name", "user")])
          (fun ru => if ru.2 == "username" then Except.ok [7, 8] else Except.ok [])
        = resolveFirst ([("name", "login")] ++ [("name", "username")])
            (fun ru => if ru.2 == "username" then Except.ok [7, 8] else Except.ok []) := by
  refine c3_priority_order [("name", "login")] [("name", "user")] ("name", "username")
    (fun ru => if ru.2 == "username" then Except.ok [7, 8] else Except.ok []) 7 [8] ?_ rfl
  intro ru hru
  rcases List.mem_singleton.mp hru with rfl
  exact Or.inl rfl

/-- Claim C4: for a valid action (click, or send_keys with truthy text), the
engine's result is success iff some tactic completes without exception (tactic
2 = scroll preamble and retried action both succeeding), the first succeeding
tactic ends the run (later tactics leave no trace), exhaustion of all three
yields `false`, and no exception escapes (the engine is a total function into
`Bool`). -/
theorem c4_escalation_order (e : Nat) (a : IAction) (text : Option String) (env : TacticEnv)
    (h : actionRuns a text = true) :
    (try_interact_with_element (some e) a text env).1
        = (env.t1 || (env.scrollOk && env.t2) || env.t3)
      ∧ (env.t1 = true →
          (try_interact_with_element (some e) a text env).2 = [Effect.native1 a])
      ∧ (env.t1 = false → (env.scrollOk && env.t2) = true →
          (try_interact_with_element (some e) a text env).2
            = [Effect.native1 a, Effect.scroll, Effect.native2 a])
      ∧ (env.t1 = false → (env.scrollOk && env.t2) = false →
          (try_interact_with_element (some e) a text env).2
            = [Effect.native1 a, Effect.scroll]
                ++ (if env.scrollOk then [Effect.native2 a] else []) ++ [Effect.script3 a]) := by
  obtain ⟨t1, t2, t3, sc⟩ := env
  cases t1 <;> cases t2 <;> cases t3 <;> cases sc <;>
    simp [try_interact_with_element, h]

/-- Witness for C4: with the direct tactic failing and the scrolled tactic
succeeding, a click succeeds and the trace stops after tactic 2. -/
theorem c4_escalation_order_witness :
    actionRuns .click none = true
      ∧ (try_interact_with_element (some 1) .click none ⟨false, true, false, true⟩).1 = true
      ∧ (try_interact_with_element (some 1) .click none ⟨false, true, false, true⟩).2
          = [Effect.native1 .click, Effect.scroll, Effect.native2 .click] := by
  have h := c4_escalation_order 1 .click none ⟨false, true, false, true⟩ rfl
  exact ⟨rfl, by simpa using h.1, h.2.2.1 rfl rfl⟩

/-- Claim C8: a falsy element returns `False` immediately, with no tactic
attempted and no session operation performed. -/
theorem c8_falsy_element (a : IAction) (text : Option String) (env : TacticEnv) :
    try_interact_with_element none a text env = (false, []) := by
  rfl

/-- Counterexample to claim C9: with `send_keys` and empty text the call does
return `False`, but the three tactics are not all no-ops — tactic 2's
scroll-into-view script (source line 157) runs before that tactic's guarded
branch is skipped, so a session operation is performed. -/
theorem c9_counterexample :
    (try_interact_with_element (some 0) .sendKeys (some "") ⟨true, true, true, true⟩).2 ≠ []
      ∧ try_interact_with_element (some 0) .sendKeys (some "") ⟨true, true, true, true⟩
          = (false, [Effect.scroll]) := by
  exact ⟨by decide, rfl⟩

/-- Claim C9 (amended): for every element and tactic environment,
`try_interact_with_element` with `send_keys` and empty or `None` text returns
`False` — every tactic's `send_keys` branch is guarded by the text being
truthy, so no clear/type/value-assignment is ever performed and the call
reports failure even though the element may be perfectly interactable; the
only session operation still performed is tactic 2's scroll-into-view. -/
theorem c9_empty_text_send_keys (e : Nat) (text : Option String) (env : TacticEnv)
    (h : textTruthy text = false) :
    try_interact_with_element (some e) .sendKeys text env = (false, [Effect.scroll]) := by
  simp [try_interact_with_element, actionRuns, h]

/-- Witness for C9 (amended): empty text at a fully interactable element. -/
theorem c9_empty_text_send_keys_witness :
    textTruthy (some "") = false
      ∧ try_interact_with_element (some 3) .sendKeys (some "") ⟨true, true, true, true⟩
          = (false, [Effect.scroll]) :=
  ⟨rfl, c9_empty_text_send_keys 3 (some "") ⟨true, true, true, true⟩ rfl⟩

/-- Claim C2: once the login form has been submitted and the settle delay has
elapsed (i.e. every earlier stage of the workflow succeeded), `login` returns
`True` iff the current URL does not contain `"login"` or a post-login marker
is present — and in particular succeeds on a URL without `"login"` even with
no marker. -/
theorem c2_login_url_or_marker (st : ClientState) (u p : String) (env : LoginEnv) (uf pf : Nat)
    (hd : st.driver.isNone = false)
    (hnav : env.navOk = true) (hinp : env.pageHasInputs = true)
    (huf : usernameResolution env = some uf)
    (hu : (try_interact_with_element (some uf) .sendKeys (some u) env.usernameTactics).1 = true)
    (hpf : passwordResolution env = some pf)
    (hp : (try_interact_with_element (some pf) .sendKeys (some p) env.passwordTactics).1 = true)
    (hs : submitStep env = true) :
    ∃ st2, login st u p env
        = .ok ((!strContains env.currentUrl "login") || is_logged_in_check env.markers, st2)
      ∧ (((!strContains env.currentUrl "login") || is_logged_in_check env.markers) = true
          ↔ (strContains env.currentUrl "login" = false
              ∨ is_logged_in_check env.markers = true)) := by
  have hb : login_decision u p env
      = ((!strContains env.currentUrl "login") || is_logged_in_check env.markers) := by
    simp [login_decision, hnav, hinp, huf, hu, hpf, hp, hs]
  refine ⟨if (!strContains env.currentUrl "login") || is_logged_in_check env.markers
      then { st with is_logged_in := true } else st, ?_, by simp⟩
  simp [login, hd, hb]

/-- An all-succeeding tactic environment, for witnesses. -/
def okTactics : TacticEnv := ⟨true, true, true, true⟩

/-- A login environment in which every query and interaction succeeds, the
post-submission URL has no `"login"` substring and no marker is present. -/
def loginEnvAll : LoginEnv :=
  { navOk := true, pageHasInputs := true,
    usernameSelQuery := fun _ => .ok [1], forms := .ok [], allInputs := .ok [],
    iframes := [], usernameTactics := okTactics,
    passwordSelQuery := fun _ => .ok [2], passwordFallback := .ok [],
    passwordTactics := okTactics,
    submitSelQuery := fun _ => .ok [3], submitTactics := okTactics, enterKeyOk := true,
    currentUrl := "http://shaarli.example/?do=daily",
    markers := ⟨[], [], [], false⟩ }

/-- Witness for C2: in `loginEnvAll` the post-submission URL lacks `"login"`,
no marker is present, and `login` still returns `True`. -/
theorem c2_login_url_or_marker_witness :
    ∃ st2, login ⟨"http://shaarli.example", some (), false⟩ "u" "p" loginEnvAll
        = .ok ((!strContains loginEnvAll.currentUrl "login")
                || is_logged_in_check loginEnvAll.markers, st2)
      ∧ (((!strContains loginEnvAll.currentUrl "login")
            || is_logged_in_check loginEnvAll.markers) = true
          ↔ (strContains loginEnvAll.currentUrl "login" = false
              ∨ is_logged_in_check loginEnvAll.markers = true)) :=
  c2_login_url_or_marker ⟨"http://shaarli.example", some (), false⟩ "u" "p" loginEnvAll 1 2
    rfl rfl rfl rfl rfl rfl rfl rfl

/-- Claim C6: once the Save control has been clicked and the settle delay has
elapsed (i.e. every earlier stage of the workflow succeeded), `add_url`
returns `True` iff the current URL contains neither `"add-shaare"` nor
`"admin"`. -/
theorem c6_add_url_final_check (st : ClientState) (url : String) (env : AddUrlEnv)
    (uf tf sb : Nat)
    (hd : st.driver.isNone = false) (hlog : st.is_logged_in = true)
    (hnav : env.navOk = true)
    (huf : resolveFirst url_selectors env.urlQuery = some uf)
    (hfill : (try_interact_with_element (some uf) .sendKeys (some url) env.urlTactics).1 = true)
    (hstep1 : addStep1 env uf = true)
    (htitle : resolveFirst title_selectors env.titleQuery = some tf)
    (hsave : resolveFirst save_selectors env.saveQuery = some sb)
    (hclick : (try_interact_with_element (some sb) .click none env.saveTactics).1 = true) :
    ∃ b, add_url st url env = .ok (b, st)
      ∧ (b = true ↔ (strContains env.currentUrl "add-shaare" = false
          ∧ strContains env.currentUrl "admin" = false)) := by
  have hb : add_url_decision url env
      = ((!strContains env.currentUrl "add-shaare") && (!strContains env.currentUrl "admin")) := by
    simp [add_url_decision, hnav, huf, hfill, hstep1, htitle, hsave, hclick]
  refine ⟨(!strContains env.currentUrl "add-shaare") && (!strContains env.currentUrl "admin"),
    ?_, by simp⟩
  simp [add_url, hd, hlog, hb]

/-- An `add_url` environment in which every query and interaction succeeds and
the final URL contains neither `"add-shaare"` nor `"admin"`. -/
def addUrlEnvAll : AddUrlEnv :=
  { navOk := true,
    urlQuery := fun _ => .ok [4], urlTactics := okTactics,
    firstSubmitQuery := fun _ => .ok [5], firstSubmitTactics := okTactics,
    enterTactics := okTactics,
    titleQuery := fun _ => .ok [6], titleTactics := okTactics,
    saveQuery := fun _ => .ok [7], saveTactics := okTactics,
    currentUrl := "http://shaarli.example/?do=daily" }

/-- Witness for C6: in `addUrlEnvAll` the final URL has neither substring and
`add_url` returns `True`. -/
theorem c6_add_url_final_check_witness :
    ∃ b, add_url ⟨"http://shaarli.example", some (), true⟩ "http://ext.example/a" addUrlEnvAll
        = .ok (b, ⟨"http://shaarli.example", some (), true⟩)
      ∧ (b = true ↔ (strContains addUrlEnvAll.currentUrl "add-shaare" = false
          ∧ strContains addUrlEnvAll.currentUrl "admin" = false)) :=
  c6_add_url_final_check ⟨"http://shaarli.example", some (), true⟩ "http://ext.example/a"
    addUrlEnvAll 4 6 7 rfl rfl rfl rfl rfl rfl rfl rfl rfl

/-- A `get_links` environment whose page queries all come back empty. -/
def getLinksEnvEmpty : GetLinksEnv :=
  { navOk := true,
    page := { modernQuery := fun _ => [], allAnchors := [],
              containerQuery := fun _ => none, containerAnchors := fun _ => [] } }

/-- Claim C7: `add_url` and `get_links` raise (return `.error`) when invoked
without a prior successful login, and `login`/`add_url` raise without an
initialized driver; under satisfied preconditions each of the three public
operations returns normally (`.ok`) for *every* environment — every internal
fault is folded into the boolean/sequence result and no exception leaks. -/
theorem c7_preconditions :
    ∀ (st : ClientState) (u p url : String) (lenv : LoginEnv) (aenv : AddUrlEnv)
      (genv : GetLinksEnv) (limit : Nat),
      (st.driver = none → ∃ m, login st u p lenv = .error m)
      ∧ (st.driver ≠ none → ∃ b st2, login st u p lenv = .ok (b, st2))
      ∧ (st.driver = none ∨ st.is_logged_in = false → ∃ m, add_url st url aenv = .error m)
      ∧ (st.driver ≠ none → st.is_logged_in = true → ∃ b st2, add_url st url aenv = .ok (b, st2))
      ∧ (st.is_logged_in = false → ∃ m, get_links st limit genv = .error m)
      ∧ (st.is_logged_in = true → ∃ l st2, get_links st limit genv = .ok (l, st2)) := by
  intro st u p url lenv aenv genv limit
  refine ⟨?_, ?_, ?_, ?_, ?_, ?_⟩
  · intro h
    exact ⟨"WebDriver not initialized. Call start_driver() first.", by simp [login, h]⟩
  · intro h
    have hd : st.driver.isNone = false := by
      cases hd2 : st.driver with
      | none => exact absurd hd2 h
      | some d => rfl
    refine ⟨login_decision u p lenv,
      if login_decision u p lenv then { st with is_logged_in := true } else st, ?_⟩
    simp [login, hd]
  · intro h
    rcases h with h | h
    · exact ⟨"WebDriver not initialized", by simp [add_url, h]⟩
    · cases hd2 : st.driver with
      | none => exact ⟨"WebDriver not initialized", by simp [add_url, hd2]⟩
      | some d => exact ⟨"Not logged in. Call login() first.", by simp [add_url, hd2, h]⟩
  · intro h hlog
    have hd : st.driver.isNone = false := by
      cases hd2 : st.driver with
      | none => exact absurd hd2 h
      | some d => rfl
    refine ⟨add_url_decision url aenv, st, ?_⟩
    simp [add_url, hd, hlog]
  · intro h
    exact ⟨"Not logged in. Call login() first.", by simp [get_links, h]⟩
  · intro h
    cases hnav : genv.navOk with
    | false => exact ⟨[], st, by simp [get_links, h, hnav]⟩
    | true => exact ⟨get_links_body st.base_url limit genv.page, st, by simp [get_links, h, hnav]⟩

/-- Witness for C7: a concrete state without a driver makes `login` error, a
logged-out state makes `get_links` error, and a logged-in state makes both
`add_url` and `get_links` return normally. -/
theorem c7_preconditions_witness :
    (∃ m, login ⟨"http://shaarli.example", none, false⟩ "u" "p" loginEnvAll = .error m)
      ∧ (∃ m, get_links ⟨"http://shaarli.example", some (), false⟩ 5 getLinksEnvEmpty
          = .error m)
      ∧ (∃ b st2, add_url ⟨"http://shaarli.example", some (), true⟩ "x" addUrlEnvAll
          = .ok (b, st2))
      ∧ (∃ l st2, get_links ⟨"http://shaarli.example", some (), true⟩ 5 getLinksEnvEmpty
          = .ok (l, st2)) := by
  refine ⟨?_, ?_, ?_, ?_⟩
  · exact (c7_preconditions ⟨"http://shaarli.example", none, false⟩ "u" "p" "x"
      loginEnvAll addUrlEnvAll getLinksEnvEmpty 5).1 rfl
  · exact (c7_preconditions ⟨"http://shaarli.example", some (), false⟩ "u" "p" "x"
      loginEnvAll addUrlEnvAll getLinksEnvEmpty 5).2.2.2.2.1 rfl
  · exact (c7_preconditions ⟨"http://shaarli.example", some (), true⟩ "u" "p" "x"
      loginEnvAll addUrlEnvAll getLinksEnvEmpty 5).2.2.2.1 (by simp) rfl
  · exact (c7_preconditions ⟨"http://shaarli.example", some (), true⟩ "u" "p" "x"
      loginEnvAll addUrlEnvAll getLinksEnvEmpty 5).2.2.2.2.2 rfl

/-- Claim C10: the `is_logged_in` flag is monotone — `login` leaves it at
`old || result` (so it becomes `True` exactly on a successful login and a
failed login never clears it), and `close`, `add_url` and `get_links` leave
it untouched; hence once a login has succeeded the precondition checks pass
for the rest of the client's lifetime. -/
theorem c10_logged_in_monotone :
    ∀ (st : ClientState) (u p url : String) (lenv : LoginEnv) (aenv : AddUrlEnv)
      (genv : GetLinksEnv) (limit : Nat) (b b2 : Bool) (l : List BookmarkRecord)
      (st2 st3 st4 : ClientState),
      (login st u p lenv = .ok (b, st2) → st2.is_logged_in = (st.is_logged_in || b))
      ∧ ((close st).is_logged_in = st.is_logged_in)
      ∧ (add_url st url aenv = .ok (b2, st3) → st3.is_logged_in = st.is_logged_in)
      ∧ (get_links st limit genv = .ok (l, st4) → st4.is_logged_in = st.is_logged_in) := by
  intro st u p url lenv aenv genv limit b b2 l st2 st3 st4
  refine ⟨?_, rfl, ?_, ?_⟩
  · intro h
    unfold login at h
    split at h
    · exact absurd h (by simp)
    · rw [Except.ok.injEq, Prod.mk.injEq] at h
      obtain ⟨hb, hst⟩ := h
      subst hb
      cases hld : login_decision u p lenv <;> rw [hld] at hst <;> subst hst <;> simp
  · intro h
    unfold add_url at h
    split at h
    · exact absurd h (by simp)
    · split at h
      · exact absurd h (by simp)
      · rw [Except.ok.injEq, Prod.mk.injEq] at h
        rw [← h.2]
  · intro h
    unfold get_links at h
    split at h
    · exact absurd h (by simp)
    · split at h <;>
        · rw [Except.ok.injEq, Prod.mk.injEq] at h
          rw [← h.2]

/-- An iframe whose first retried selector rule matches element `42`. -/
def hitFrame : IframeData :=
  ⟨true, fun _ => .ok [42]⟩

/-- An iframe in which none of the retried rules matches. -/
def missFrame : IframeData :=
  ⟨true, fun _ => .ok []⟩

/-- Counterexample to claim C5: on a page with a single iframe whose first
retried rule matches, the iframe search returns the hit — but the driver is
left focused on that iframe, not restored to the default content (the `break`
at source line 343 skips the `switch_to.default_content()` of line 345). -/
theorem c5_counterexample :
    iframeSearch [hitFrame] = (some 42, Ctx.frame 0)
      ∧ Ctx.frame 0 ≠ Ctx.mainDoc := by
  exact ⟨rfl, by decide⟩

/-- Claim C5 (amended): the iframe fallback retries exactly the first 5 rules
of the username plan per iframe (see `searchFrame`) and returns on the first
hit; when no iframe yields a hit the default document context is restored
before returning, but on a hit the search returns with the driver still
switched into the hit iframe's context. -/
theorem c5_iframe_fallback (frames : List IframeData) (i : Nat) :
    ((iframeSearchAux i frames).1 = none → (iframeSearchAux i frames).2 = Ctx.mainDoc)
      ∧ (∀ e, (iframeSearchAux i frames).1 = some e →
          ∃ k f, frames[k]? = some f
            ∧ (iframeSearchAux i frames).2 = Ctx.frame (i + k)
            ∧ searchFrame f = some e
            ∧ ∀ j g, j < k → frames[j]? = some g → searchFrame g = none) := by
  induction frames generalizing i with
  | nil =>
    exact ⟨fun _ => rfl, fun e he => by simp [iframeSearchAux] at he⟩
  | cons f rest ih =>
    cases hf : searchFrame f with
    | some e0 =>
      have hstep : iframeSearchAux i (f :: rest) = (some e0, Ctx.frame i) := by
        simp [iframeSearchAux, hf]
      constructor
      · intro h
        rw [hstep] at h
        simp at h
      · intro e he
        rw [hstep] at he
        simp only [Option.some.injEq] at he
        subst he
        refine ⟨0, f, by simp, by simp [hstep], hf, ?_⟩
        intro j g hj
        exact absurd hj (Nat.not_lt_zero j)
    | none =>
      have hstep : iframeSearchAux i (f :: rest) = iframeSearchAux (i + 1) rest := by
        simp [iframeSearchAux, hf]
      constructor
      · intro h
        rw [hstep] at h ⊢
        exact (ih (i + 1)).1 h
      · intro e he
        rw [hstep] at he
        obtain ⟨k, g, hget, hctx, hhit, hprev⟩ := (ih (i + 1)).2 e he
        refine ⟨k + 1, g, by simpa using hget, ?_, hhit, ?_⟩
        · rw [hstep, hctx]
          have : i + 1 + k = i + (k + 1) := by omega
          rw [this]
        · intro j g2 hj hg2
          cases j with
          | zero =>
            simp only [List.getElem?_cons_zero, Option.some.injEq] at hg2
            subst hg2
            exact hf
          | succ j2 =>
            exact hprev j2 g2 (Nat.lt_of_succ_lt_succ hj) (by simpa using hg2)

/-- Witness for C5 (amended): with a missing-everywhere first iframe and a
hit in the second, the search returns the hit from index 1 with the context
left at `frame 1`. -/
theorem c5_iframe_fallback_witness :
    ∃ k f, [missFrame, hitFrame][k]? = some f
      ∧ (iframeSearchAux 0 [missFrame, hitFrame]).2 = Ctx.frame (0 + k)
      ∧ searchFrame f = some 42
      ∧ ∀ j g, j < k → [missFrame, hitFrame][j]? = some g → searchFrame g = none :=
  (c5_iframe_fallback [missFrame, hitFrame] 0).2 42 rfl

/-- A kept record has a truthy url, equal to the url value it was built from.
-/
theorem mkIfUrl_some (url : Option String) (t d g : String) (r : BookmarkRecord)
    (h : mkIfUrl url t d g = some r) : r.url ≠ "" ∧ url = some r.url := by
  cases url with
  | none => simp [mkIfUrl] at h
  | some u =>
    cases hu : u.isEmpty with
    | true => simp [mkIfUrl, hu] at h
    | false =>
      simp only [mkIfUrl, hu, Bool.false_eq_true, if_false, Option.some.injEq] at h
      subst h
      refine ⟨fun hcon => ?_, rfl⟩
      have hu2 : u = "" := hcon
      subst hu2
      exact absurd hu (by decide)

/-- Every record emitted by the extraction loop has a non-empty url. -/
theorem extractOne_url_ne (base : String) (it : PageItem) (r : BookmarkRecord)
    (h : extractOne base it = some r) : r.url ≠ "" := by
  cases it with
  | anchor a => exact (mkIfUrl_some _ _ _ _ _ h).1
  | el e =>
    unfold extractOne at h
    cases ht : (e.tag == "a") with
    | true =>
      simp only [ht, if_true] at h
      exact (mkIfUrl_some _ _ _ _ _ h).1
    | false =>
      simp only [ht, Bool.false_eq_true, if_false] at h
      split at h
      · exact absurd h (by simp)
      · exact (mkIfUrl_some _ _ _ _ _ h).1

/-- The in-element link search only ever returns anchors passing the external
filter. -/
theorem findInnerLink_external (base : String) (e : LElem) (sels : List String) (la : LAnchor)
    (h : findInnerLink base e sels = some la) : isExternal base la.href = true := by
  induction sels with
  | nil => simp [findInnerLink] at h
  | cons s rest ih =>
    unfold findInnerLink at h
    split at h
    · next x heq =>
      injection h with h2
      subst h2
      simpa using List.find?_some heq
    · exact ih h

/-- A record built from a pre-filtered (external) anchor has a url that does
not contain the base URL. -/
theorem extractOne_anchor_external (base : String) (a : LAnchor) (r : BookmarkRecord)
    (hext : isExternal base a.href = true)
    (h : extractOne base (.anchor a) = some r) : strContains r.url base = false := by
  have h2 : mkIfUrl a.href (firstTruthy (pyStrip a.text) a.titleAttr "No title") "" ""
      = some r := h
  obtain ⟨-, hu⟩ := mkIfUrl_some _ _ _ _ _ h2
  rw [hu] at hext
  simp only [isExternal, Bool.and_eq_true, Bool.not_eq_true'] at hext
  exact hext.2

/-- A record built from a non-anchor candidate element has a url that does not
contain the base URL (its url comes from the filtered in-element search). -/
theorem extractOne_el_external (base : String) (e : LElem) (r : BookmarkRecord)
    (htag : (e.tag == "a") = false)
    (h : extractOne base (.el e) = some r) : strContains r.url base = false := by
  unfold extractOne at h
  simp only [htag, Bool.false_eq_true, if_false] at h
  split at h
  · exact absurd h (by simp)
  · next la heq =>
    obtain ⟨-, hu⟩ := mkIfUrl_some _ _ _ _ _ h
    have hext := findInnerLink_external base e link_selectors la heq
    rw [hu] at hext
    simp only [isExternal, Bool.and_eq_true, Bool.not_eq_true'] at hext
    exact hext.2

/-- Tier 1 returns the (non-empty) result of one of the tier-1 selectors. -/
theorem firstModernMatch_mem (q : String → List LElem) (sels : List String) (els : List LElem)
    (h : firstModernMatch q sels = some els) : ∃ sel ∈ sels, q sel = els := by
  induction sels with
  | nil => simp [firstModernMatch] at h
  | cons s rest ih =>
    unfold firstModernMatch at h
    split at h
    · next heq =>
      obtain ⟨sel, hm, he⟩ := ih h
      exact ⟨sel, List.mem_cons_of_mem s hm, he⟩
    · next e es heq =>
      injection h with h2
      exact ⟨s, List.mem_cons_self s rest, by rw [heq, h2]⟩

/-- Every anchor handed over by tier 3 passed the external filter. -/
theorem firstContainerMatch_ext (base : String) (page : LinksPage) (sels : List String)
    (ext : List LAnchor) (h : firstContainerMatch base page sels = some ext) :
    ∀ a ∈ ext, isExternal base a.href = true := by
  induction sels with
  | nil => simp [firstContainerMatch] at h
  | cons s rest ih =>
    unfold firstContainerMatch at h
    split at h
    · exact ih h
    · next c heq =>
      split at h
      · exact ih h
      · next e es heq2 =>
        injection h with h2
        intro a ha
        rw [← h2, ← heq2] at ha
        exact (List.mem_filter.mp ha).2

/-- A tier-1 candidate that is itself an anchor, with a same-origin href (a
link back into the Shaarli instance). -/
def tierOneAnchorElem : LElem :=
  { tag := "a", href := some "http://shaarli.example/tag/x", text := "tag", titleAttr := none,
    innerLinks := fun _ => [], innerDesc := fun _ => none, innerTags := fun _ => [] }

/-- A page on which the second tier-1 selector (`.bookmark`) matches that
same-origin anchor. -/
def tierOnePage : LinksPage :=
  { modernQuery := fun sel => if sel == ".bookmark" then [tierOneAnchorElem] else [],
    allAnchors := [], containerQuery := fun _ => none, containerAnchors := fun _ => [] }

/-- Counterexample to claim C1: on `tierOnePage` (handled by the first
cascade tier) `get_links` emits a record whose url contains the configured
base URL — a tier-1 candidate that is itself an anchor is read out at source
lines 871-876 without the external-link filter. -/
theorem c1_counterexample :
    (get_links_body "http://shaarli.example" 10 tierOnePage).map BookmarkRecord.url
        = ["http://shaarli.example/tag/x"]
      ∧ strContains "http://shaarli.example/tag/x" "http://shaarli.example" = true := by
  exact ⟨by decide, by decide⟩

/-- Claim C1 (amended): every record returned by the extraction has a
non-empty url; and every record whose url does contain the base URL was
produced by a tier-1 candidate element that is itself an anchor tag —
equivalently, records of tier 2, of tier 3, and of tier-1 candidates that are
not themselves anchors never have a same-origin url (those paths all pass the
external filter; only the tier-1 direct-anchor path escapes it). -/
theorem c1_extraction_invariant (base : String) (limit : Nat) (page : LinksPage)
    (r : BookmarkRecord) (hr : r ∈ get_links_body base limit page) :
    r.url ≠ ""
      ∧ (strContains r.url base = true →
          ∃ els e2, firstModernMatch page.modernQuery modern_selectors = some els
            ∧ e2 ∈ els.take limit ∧ (e2.tag == "a") = true
            ∧ extractOne base (.el e2) = some r) := by
  unfold get_links_body at hr
  split at hr
  · next els hm =>
    rw [List.mem_filterMap] at hr
    obtain ⟨it, hit, hex⟩ := hr
    rw [List.mem_map] at hit
    obtain ⟨e2, he2, rfl⟩ := hit
    refine ⟨extractOne_url_ne base _ r hex, fun hsame => ?_⟩
    cases ht : (e2.tag == "a") with
    | true => exact ⟨els, e2, hm, he2, ht, hex⟩
    | false =>
      have hext2 := extractOne_el_external base e2 r ht hex
      exact absurd hsame (by simp [hext2])
  · next hm =>
    split at hr
    · next p ps hf =>
      rw [List.mem_filterMap] at hr
      obtain ⟨it, hit, hex⟩ := hr
      rw [List.mem_map] at hit
      obtain ⟨a, ha, rfl⟩ := hit
      have haext : isExternal base a.href = true := by
        have hmem : a ∈ page.allAnchors.filter (fun a2 => isExternal base a2.href) := by
          rw [hf]
          exact List.take_subset limit _ ha
        exact (List.mem_filter.mp hmem).2
      refine ⟨extractOne_url_ne base _ r hex, fun hsame => ?_⟩
      have hext2 := extractOne_anchor_external base a r haext hex
      exact absurd hsame (by simp [hext2])
    · next hf =>
      split at hr
      · next ext hc =>
        rw [List.mem_filterMap] at hr
        obtain ⟨it, hit, hex⟩ := hr
        rw [List.mem_map] at hit
        obtain ⟨a, ha, rfl⟩ := hit
        have haext := firstContainerMatch_ext base page container_selectors ext hc a
          (List.take_subset limit ext ha)
        refine ⟨extractOne_url_ne base _ r hex, fun hsame => ?_⟩
        have hext2 := extractOne_anchor_external base a r haext hex
        exact absurd hsame (by simp [hext2])
      · simp at hr

/-- An external anchor, for the C1 witness page. -/
def tierTwoAnchor : LAnchor :=
  { href := some "http://ext.example/a", text := "x", titleAttr := none }

/-- A page with no recognized tier-1 containers and one external anchor,
served by the tier-2 anchor scan. -/
def tierTwoPage : LinksPage :=
  { modernQuery := fun _ => [], allAnchors := [tierTwoAnchor],
    containerQuery := fun _ => none, containerAnchors := fun _ => [] }

/-- Witness for C1 (amended): the tier-2 record of `tierTwoPage` has a
non-empty url, and were it same-origin it would have to come from a tier-1
anchor candidate. -/
theorem c1_extraction_invariant_witness :
    (BookmarkRecord.mk "http://ext.example/a" "x" "" "").url ≠ ""
      ∧ (strContains (BookmarkRecord.mk "http://ext.example/a" "x" "" "").url
            "http://shaarli.example" = true →
          ∃ els e2, firstModernMatch tierTwoPage.modernQuery modern_selectors = some els
            ∧ e2 ∈ els.take 10 ∧ (e2.tag == "a") = true
            ∧ extractOne "http://shaarli.example" (.el e2)
                = some (BookmarkRecord.mk "http://ext.example/a" "x" "" "")) :=
  c1_extraction_invariant "http://shaarli.example" 10 tierTwoPage
    ⟨"http://ext.example/a", "x", "", ""⟩ (by decide)

/-- Witness for C10: a concrete successful login on a logged-out client sets
the flag, matching `old || true`. -/
theorem c10_logged_in_monotone_witness :
    (ClientState.mk "http://shaarli.example" (some ()) true).is_logged_in
      = ((ClientState.mk "http://shaarli.example" (some ()) false).is_logged_in || true) :=
  (c10_logged_in_monotone ⟨"http://shaarli.example", some (), false⟩ "u" "p" "x"
    loginEnvAll addUrlEnvAll getLinksEnvEmpty 5 true true []
    ⟨"http://shaarli.example", some (), true⟩ ⟨"http://shaarli.example", some (), false⟩
    ⟨"http://shaarli.example", some (), false⟩).1 rfl

end Shaarli
